import Mathlib

/-!
Shallow embedding of `src/app.py` (Clair-Form): a single-page Flask app that
populates dropdowns from Notion reference tables, validates a daily-sales
submission and maps it into a Notion record-creation call.  The functions
below are direct translations of the source functions; external HTTP
responses are passed in as explicit data so that the transport behaviour is
part of the model.
-/

/-- Python's `str.strip` whitespace set (the ASCII part used by CPython). -/
def is_py_space (c : Char) : Bool :=
  c == ' ' || c == '\t' || c == '\n' || c == '\r' || c == '\x0b' || c == '\x0c'

/-- Python `s.strip()`: drop leading and trailing whitespace. -/
def py_strip (s : String) : String :=
  ⟨((s.data.dropWhile is_py_space).reverse.dropWhile is_py_space).reverse⟩

/-- Python `s.replace(",", "")`: remove every comma. -/
def remove_commas (s : String) : String :=
  ⟨s.data.filter (fun c => c != ',')⟩

/-- Numeric value of a list of decimal digits, most significant first. -/
def digits_val (l : List Char) : Nat :=
  l.foldl (fun a c => 10 * a + (c.toNat - 48)) 0

/-- Python `", ".join l`. -/
def join_comma_space : List String → String
  | [] => ""
  | [s] => s
  | s :: rest => s ++ ", " ++ join_comma_space rest

/-- Python `"".join l`. -/
def join_all (l : List String) : String :=
  ⟨(l.map String.data).flatten⟩

/-- Leap-year rule applied by Python's `datetime`. -/
def is_leap_year (y : Nat) : Bool :=
  y % 4 == 0 && (y % 100 != 0 || y % 400 == 0)

/-- Days in a month as validated by `datetime.datetime`. -/
def days_in_month (y m : Nat) : Nat :=
  if m == 2 then (if is_leap_year y then 29 else 28)
  else if m == 4 || m == 6 || m == 9 || m == 11 then 30 else 31

/-- Whether a character list matches `strptime`'s `%Y-%m-%d` pattern for a
valid calendar date: exactly four year digits, one or two month digits with
value 1..12, one or two day digits bounded by the month length, year at least
1 (CPython's `%Y`/`%m`/`%d` sub-patterns, then the `datetime` constructor's
range checks; digits modelled as ASCII). -/
def valid_yyyy_mm_dd (cs : List Char) : Bool :=
  let p1 := cs.span Char.isDigit
  match p1.2 with
  | '-' :: r2 =>
    let p2 := r2.span Char.isDigit
    match p2.2 with
    | '-' :: r4 =>
      let p3 := r4.span Char.isDigit
      let y := digits_val p1.1
      let m := digits_val p2.1
      let d := digits_val p3.1
      p3.2.isEmpty && p1.1.length == 4 && decide (1 ≤ y) &&
        (p2.1.length == 1 || p2.1.length == 2) && decide (1 ≤ m) && decide (m ≤ 12) &&
        (p3.1.length == 1 || p3.1.length == 2) && decide (1 ≤ d) &&
        decide (d ≤ days_in_month y m)
    | _ => false
  | _ => false

/-- Models `_parse_date_yyyy_mm_dd` (src/app.py:165-171): strip, validate via
`strptime("%Y-%m-%d")`, return the stripped string; `none` models the raised
`ValueError`. -/
def parse_date_yyyy_mm_dd (s : String) : Option String :=
  if valid_yyyy_mm_dd (py_strip s).data then some (py_strip s) else none

/-- Optional leading sign of a numeric literal; `true` means negative. -/
def parse_sign : List Char → Bool × List Char
  | '-' :: r => (true, r)
  | '+' :: r => (false, r)
  | cs => (false, cs)

/-- Exact rational value of the decimal literal with integer digits `ip`,
fraction digits `fp`, and exponent `e` (negated when `eneg`). -/
def decimal_value (ip fp : List Char) (eneg : Bool) (e : Nat) : ℚ :=
  if eneg then mkRat (digits_val ip * 10 ^ fp.length + digits_val fp) (10 ^ fp.length * 10 ^ e)
  else mkRat ((digits_val ip * 10 ^ fp.length + digits_val fp) * 10 ^ e) (10 ^ fp.length)

/-- Exponent part after `e`/`E`: optional sign, then one or more digits
consuming the whole remainder. -/
def parse_exponent (cs : List Char) : Option (Bool × Nat) :=
  let sp := parse_sign cs
  let dp := sp.2.span Char.isDigit
  if dp.1.isEmpty || !dp.2.isEmpty then none else some (sp.1, digits_val dp.1)

/-- Models CPython `float(s)` on the decimal fragment of its literal grammar:
surrounding whitespace stripped, then optional sign, digits with an optional
fraction part (at least one digit overall) and an optional signed exponent.
The `inf`/`nan` words and digit-group underscores are outside the fragment
this program's claims exercise, and the IEEE-754 rounding is idealised to the
exact rational value of the literal. -/
def py_float (s : String) : Option ℚ :=
  let cs := (py_strip s).data
  let sp := parse_sign cs
  let ipp := sp.2.span Char.isDigit
  let signed : ℚ → Option ℚ := fun q => some (if sp.1 then -q else q)
  match ipp.2 with
  | '.' :: tail =>
    let fpp := tail.span Char.isDigit
    if ipp.1.isEmpty && fpp.1.isEmpty then none
    else
      match fpp.2 with
      | [] => signed (decimal_value ipp.1 fpp.1 false 0)
      | 'e' :: etail =>
        match parse_exponent etail with
        | some ep => signed (decimal_value ipp.1 fpp.1 ep.1 ep.2)
        | none => none
      | 'E' :: etail =>
        match parse_exponent etail with
        | some ep => signed (decimal_value ipp.1 fpp.1 ep.1 ep.2)
        | none => none
      | _ => none
  | [] => if ipp.1.isEmpty then none else signed (decimal_value ipp.1 [] false 0)
  | 'e' :: etail =>
    if ipp.1.isEmpty then none
    else
      match parse_exponent etail with
      | some ep => signed (decimal_value ipp.1 [] ep.1 ep.2)
      | none => none
  | 'E' :: etail =>
    if ipp.1.isEmpty then none
    else
      match parse_exponent etail with
      | some ep => signed (decimal_value ipp.1 [] ep.1 ep.2)
      | none => none
  | _ => none

/-- Models `_to_float` (src/app.py:173-177): strip, remove commas, `float`;
`none` models the raised `ValueError`. -/
def to_float (s : String) : Option ℚ :=
  py_float (remove_commas (py_strip s))

/-- Python `int(q)` applied to a (model) float: truncation toward zero. -/
def rat_trunc (q : ℚ) : ℤ :=
  q.num.tdiv q.den

/-- Models `_to_int` (src/app.py:179-182): strip, remove commas,
`int(float(s))`. -/
def to_int (s : String) : Option ℤ :=
  (py_float (remove_commas (py_strip s))).map rat_trunc

/-- An HTTP response of the external service: status code, raw body text and
the JSON-decoded payload. -/
structure HttpResponse (α : Type) where
  status : Nat
  text : String
  json : α

/-- Models `_notion_post` (src/app.py:48-53): raise a `RuntimeError` carrying
the status code and the raw body when the status is at least 400, otherwise
return the decoded JSON body. -/
def notion_post {α : Type} (r : HttpResponse α) : Except String α :=
  if 400 ≤ r.status then
    Except.error ("Notion error " ++ toString r.status ++ ": " ++ r.text)
  else Except.ok r.json

/-- Result payload of a `formula` property (src/app.py:116-130); `none`
components model JSON `null` or missing keys. -/
inductive FormulaResult where
  | fstring (s : Option String)
  | fnumber (n : Option ℚ)
  | fboolean (b : Option Bool)
  | fdate (start : Option String)
  | funknown

/-- One typed Notion property as decoded from the query API
(src/app.py:85-133).  `none` components model JSON `null` or missing keys;
`unknown` models every type the source does not handle. -/
inductive NotionProperty where
  | title (spans : List String)
  | rich_text (spans : List String)
  | number (n : Option ℚ)
  | select (name : Option String)
  | status (name : Option String)
  | formula (f : FormulaResult)
  | unknown

/-- The property bag of one fetched Notion page, keyed by property name. -/
abbrev PropBag := List (String × NotionProperty)

/-- Python `s or None` on a string: the empty string becomes `None`. -/
def or_none (s : String) : Option String :=
  if s = "" then none else some s

/-- Python `str(v)` on a JSON number, modelled on exact rationals.  The exact
rendering is not load-bearing for any claim; only that a number decodes to a
string rather than to `None`. -/
def num_str (q : ℚ) : String :=
  if q.den == 1 then toString q.num else toString q

/-- Models `_get_prop_value` (src/app.py:85-133): decode the property of the
given name to an optional string. -/
def get_prop_value (props : PropBag) (prop_name : String) : Option String :=
  match props.lookup prop_name with
  | none => none
  | some p =>
    match p with
    | NotionProperty.title spans => or_none (py_strip (join_all spans))
    | NotionProperty.rich_text spans => or_none (py_strip (join_all spans))
    | NotionProperty.number n => n.map num_str
    | NotionProperty.select name => name
    | NotionProperty.status name => name
    | NotionProperty.formula fr =>
      match fr with
      | FormulaResult.fstring s => s
      | FormulaResult.fnumber n => n.map num_str
      | FormulaResult.fboolean b => b.map (fun x => if x then "true" else "false")
      | FormulaResult.fdate d => d
      | FormulaResult.funknown => none
    | NotionProperty.unknown => none

/-- Bool-valued lexicographic comparison of char lists by code point,
matching Python's string `<`. -/
def str_lt : List Char → List Char → Bool
  | [], [] => false
  | [], _ :: _ => true
  | _ :: _, [] => false
  | a :: as, b :: bs =>
    if a.toNat < b.toNat then true
    else if b.toNat < a.toNat then false
    else str_lt as bs

/-- Stable insertion into a list sorted by option value. -/
def insert_by_value (x : String × String) :
    List (String × String) → List (String × String)
  | [] => [x]
  | y :: ys =>
    if str_lt y.1.data x.1.data then y :: insert_by_value x ys
    else x :: y :: ys

/-- Stable sort of options by their value component; models Python's stable
`opts.sort(key=lambda x: x[0])` (src/app.py:162). -/
def sort_by_value : List (String × String) → List (String × String)
  | [] => []
  | x :: xs => insert_by_value x (sort_by_value xs)

/-- The per-row step of `_options_from_db` (src/app.py:144-159): decode the
value property, skip falsy values, strip, and attach the label. -/
def row_option (id_property_name : String) (label_property_name : Option String)
    (props : PropBag) : Option (String × String) :=
  match get_prop_value props id_property_name with
  | none => none
  | some v0 =>
    if v0 = "" then none
    else
      let v := py_strip v0
      let label :=
        match label_property_name with
        | none => v
        | some lpn =>
          if lpn = "" then v
          else
            match get_prop_value props lpn with
            | some nm => if nm = "" then v else v ++ " — " ++ py_strip nm
            | none => v
      some (v, label)

/-- Models `_options_from_db` (src/app.py:135-163) applied to fetched pages:
build one option per row with a truthy value and sort by value. -/
def options_from_pages (pages : List PropBag) (id_property_name : String)
    (label_property_name : Option String) : List (String × String) :=
  sort_by_value (pages.filterMap (row_option id_property_name label_property_name))

/-- One decoded response of `POST /databases/.../query`: the page's rows,
the `has_more` flag, and the cursor the source would echo into the next
request payload (the cursor does not influence the decoded results). -/
structure QueryPage where
  results : List PropBag
  has_more : Bool
  next_cursor : Option String

/-- The pagination loop of `_query_database_all` (src/app.py:65-82): `server`
lists the successive responses the service returns, one per issued call; the
second component counts the calls made.  An exhausted list models a server
with no further responses. -/
def query_loop : List QueryPage → List PropBag × Nat
  | [] => ([], 0)
  | pg :: rest =>
    if pg.has_more then
      (pg.results ++ (query_loop rest).1, (query_loop rest).2 + 1)
    else (pg.results, 1)

/-- Models `_query_database_all` (src/app.py:55-83): an empty database id
returns an empty collection with no call attempted, otherwise the pagination
loop runs. -/
def query_database_all (database_id : String) (server : List QueryPage) :
    List PropBag × Nat :=
  if database_id = "" then ([], 0) else query_loop server

/-- Models `_options_from_db` (src/app.py:135-163) end to end, returning the
options together with the number of query calls issued. -/
def options_from_db (database_id : String) (id_property_name : String)
    (label_property_name : Option String) (server : List QueryPage) :
    List (String × String) × Nat :=
  (options_from_pages (query_database_all database_id server).1
      id_property_name label_property_name,
    (query_database_all database_id server).2)

/-- The raw submitted form fields (src/app.py:214-226); `request.form.get`
defaults every field to the empty string. -/
structure FormData where
  date : String
  salesman_id : String
  distributor_id : String
  region : String
  outlet_id : String
  outlet_name : String
  sku_id : String
  quantity : String
  value : String
  selling_mode : String
  visit_yn : String
deriving DecidableEq

/-- The `form_values` dict (src/app.py:214-226). -/
def form_values (f : FormData) : List (String × String) :=
  [("date", f.date), ("salesman_id", f.salesman_id),
   ("distributor_id", f.distributor_id), ("region", f.region),
   ("outlet_id", f.outlet_id), ("outlet_name", f.outlet_name),
   ("sku_id", f.sku_id), ("quantity", f.quantity), ("value", f.value),
   ("selling_mode", f.selling_mode), ("visit_yn", f.visit_yn)]

/-- Python `form_values.get(name, "")`. -/
def form_get (f : FormData) (name : String) : String :=
  ((form_values f).lookup name).getD ""

/-- The fixed required-field list (src/app.py:229-232), in source order;
`outlet_name` is not in it. -/
def required_fields : List String :=
  ["date", "salesman_id", "distributor_id", "region", "outlet_id",
   "sku_id", "quantity", "value", "selling_mode", "visit_yn"]

/-- The missing-field collection (src/app.py:233): every required field whose
stripped value is empty, in required-field order. -/
def missing_fields (f : FormData) : List String :=
  required_fields.filter (fun n => py_strip (form_get f n) == "")

/-- The `errors` list right before the submission step (src/app.py:228-252):
one combined message when fields are missing; the three type checks run only
when the error list is still empty (the `if not errors:` guard at line 238),
each appending its own message on parse failure. -/
def validation_errors (f : FormData) : List String :=
  if (missing_fields f).isEmpty then
    (if (parse_date_yyyy_mm_dd f.date).isSome then []
     else ["Date must be in YYYY-MM-DD format."])
      ++ ((if (to_int f.quantity).isSome then [] else ["Quantity must be a number."])
        ++ (if (to_float f.value).isSome then [] else ["Value must be a number."]))
  else ["Missing fields: " ++ join_comma_space (missing_fields f)]

/-- The record payload built at src/app.py:267-280.  Each field holds the
leaf content of the corresponding property of the `notion_props` dict:
`name` the title text, `date_start` the `date.start` bound (the source dict
carries no `end` and no `time_zone` key), `quantity` and `value` the plain
numbers, `selling_mode` and `visit` the select option names, and the
remaining fields rich-text contents. -/
structure NotionRecord where
  name : String
  date_start : String
  salesman_id : String
  distributor_id : String
  region : String
  outlet_id : String
  outlet_name : String
  sku_id : String
  quantity : ℤ
  value : ℚ
  selling_mode : String
  visit : String
deriving DecidableEq

/-- The title text (src/app.py:261), built from the raw form values. -/
def title_text (date_iso : String) (f : FormData) : String :=
  date_iso ++ " | Outlet " ++ f.outlet_id ++ " | SKU " ++ f.sku_id

/-- The `notion_props` property map (src/app.py:267-280). -/
def notion_props (f : FormData) (date_iso : String) (qty : ℤ) (val : ℚ) :
    NotionRecord where
  name := title_text date_iso f
  date_start := date_iso
  salesman_id := py_strip f.salesman_id
  distributor_id := py_strip f.distributor_id
  region := py_strip f.region
  outlet_id := py_strip f.outlet_id
  outlet_name := py_strip f.outlet_name
  sku_id := py_strip f.sku_id
  quantity := qty
  value := val
  selling_mode := py_strip f.selling_mode
  visit := py_strip f.visit_yn

/-- Outcome of one POST request to the route (src/app.py:212-294): the form
re-rendered with validation errors, the success page, or an exception
escaping the handler — nothing in `daily_sales_form` catches the errors
raised by `_notion_create_daily_sales_row`, so they abort the request. -/
inductive PostResult where
  | rendered (errors : List String)
  | success (title : String)
  | unhandled (msg : String)
deriving DecidableEq

/-- Models the POST branch of `daily_sales_form` (src/app.py:212-294).
`db_daily_sales` is the configured target table id (src/app.py:184-192) and
`resp` the service's response to the create call, consulted only when the
call is reached.  The second component lists the create calls issued with
their payloads.  The dropdown fetching on page load (src/app.py:200-207)
does not interact with submission handling and is outside this function. -/
def daily_sales_post (db_daily_sales : String) (f : FormData)
    (resp : HttpResponse Unit) : PostResult × List NotionRecord :=
  if (validation_errors f).isEmpty then
    match parse_date_yyyy_mm_dd f.date, to_int f.quantity, to_float f.value with
    | some date_iso, some qty, some val =>
      if db_daily_sales = "" then
        (PostResult.unhandled "DB_DAILY_SALES missing/blank in .env", [])
      else
        match notion_post resp with
        | Except.error msg =>
          (PostResult.unhandled msg, [notion_props f date_iso qty val])
        | Except.ok _ =>
          (PostResult.success (title_text date_iso f), [notion_props f date_iso qty val])
    | _, _, _ =>
      (PostResult.unhandled "unreachable: validation passed but a parse failed", [])
  else (PostResult.rendered (validation_errors f), [])

/-- A fully valid submission, the base of the concrete scenarios below. -/
def base_form : FormData where
  date := "2024-03-05"
  salesman_id := "S1"
  distributor_id := "D1"
  region := "North"
  outlet_id := "O7"
  outlet_name := "Shop7"
  sku_id := "K3"
  quantity := "5"
  value := "10"
  selling_mode := "Retail"
  visit_yn := "Y"

/-- A create-call response with a success status. -/
def resp_ok : HttpResponse Unit := ⟨200, "", ()⟩

/-- A create-call response with an error status. -/
def resp_500 : HttpResponse Unit := ⟨500, "boom", ()⟩

/-- The record the pipeline builds from `base_form`. -/
def base_rec : NotionRecord := notion_props base_form "2024-03-05" 5 10

/-- `base_form` with quantity and region submitted empty. -/
def c2_form : FormData := { base_form with quantity := "", region := "" }

/-- `base_form` with quantity, region and value all submitted blank (value
whitespace-only, so it strips to empty). -/
def c2_form3 : FormData :=
  { base_form with quantity := "", region := "", value := " " }

/-- `base_form` with region empty and a malformed date. -/
def c3_form : FormData := { base_form with region := "", date := "bad" }

/-- All required fields filled, but date, quantity and value all malformed. -/
def c3_typed_form : FormData :=
  { base_form with date := "2024-13-01", quantity := "abc", value := "x2" }

/-- `base_form` with comma-grouped numeric inputs. -/
def c5_form : FormData := { base_form with quantity := "1,200", value := "3,000.5" }

/-- The record the pipeline builds from `c5_form`. -/
def c5_rec : NotionRecord := notion_props c5_form "2024-03-05" 1200 (mkRat 6001 2)

/-- `base_form` with surrounding whitespace in the submitted date. -/
def c6_form : FormData := { base_form with date := " 2024-03-05" }

/-- `base_form` with a decimal, non-integer quantity. -/
def c10_form : FormData := { base_form with quantity := "12.9" }

/-- `base_form` with a comma-grouped decimal quantity. -/
def c10_form2 : FormData := { base_form with quantity := "1,200.5" }

/-- A reference row whose value property is a select named by a single
space: truthy in Python, but empty once stripped. -/
def c8_page : PropBag := [("ID", NotionProperty.select (some " "))]

theorem mem_insert_by_value (a x : String × String) (l : List (String × String)) :
    a ∈ insert_by_value x l ↔ a = x ∨ a ∈ l := by
  induction l with
  | nil => simp [insert_by_value]
  | cons y ys ih =>
    simp only [insert_by_value]
    split
    · simp [ih]
      tauto
    · simp

theorem mem_sort_by_value (a : String × String) (l : List (String × String)) :
    a ∈ sort_by_value l ↔ a ∈ l := by
  induction l with
  | nil => simp [sort_by_value]
  | cons x xs ih => simp [sort_by_value, mem_insert_by_value, ih]

theorem parse_date_eq_strip {s d : String} (h : parse_date_yyyy_mm_dd s = some d) :
    d = py_strip s := by
  unfold parse_date_yyyy_mm_dd at h
  split at h
  · exact (Option.some.inj h).symm
  · exact absurd h (by simp)

theorem message_missing_ne_quantity (x : String) :
    "Missing fields: " ++ x ≠ "Quantity must be a number." := by
  intro h
  have h1 : ("Missing fields: " ++ x).data = "Quantity must be a number.".data :=
    congrArg String.data h
  simp [String.data_append] at h1

theorem validation_errors_nil_parses {f : FormData} (h : validation_errors f = []) :
    (∃ d, parse_date_yyyy_mm_dd f.date = some d) ∧ (∃ q, to_int f.quantity = some q) ∧
      ∃ v, to_float f.value = some v := by
  unfold validation_errors at h
  split at h
  · refine ⟨?_, ?_, ?_⟩
    · cases hd : parse_date_yyyy_mm_dd f.date
      · rw [hd] at h; simp at h
      · exact ⟨_, rfl⟩
    · cases hq : to_int f.quantity
      · rw [hq] at h; simp at h
      · exact ⟨_, rfl⟩
    · cases hv : to_float f.value
      · rw [hv] at h; simp at h
      · exact ⟨_, rfl⟩
  · simp at h

theorem calls_characterization {db : String} {f : FormData} {resp : HttpResponse Unit}
    {rec : NotionRecord} (h : rec ∈ (daily_sales_post db f resp).2) :
    ∃ d q v, parse_date_yyyy_mm_dd f.date = some d ∧ to_int f.quantity = some q ∧
      to_float f.value = some v ∧ rec = notion_props f d q v := by
  unfold daily_sales_post at h
  split at h
  · split at h
    · rename_i di qt vl hd hq hv
      split at h
      · simp at h
      · split at h
        · simp at h
          exact ⟨di, qt, vl, hd, hq, hv, h⟩
        · simp at h
          exact ⟨di, qt, vl, hd, hq, hv, h⟩
    · simp at h
  · simp at h

/-- C1 (counterexample): a valid submission with `visit_yn="Y"` produces a
create call whose Visit select name is the raw `"Y"`, not a canonical
`"yes"` label. -/
theorem visit_not_normalized_counterexample :
    (daily_sales_post "db1" base_form resp_ok).2.map NotionRecord.visit = ["Y"] ∧
      ("Y" : String) ≠ "yes" := by
  constructor
  · decide
  · decide

/-- C1 (amended): the Visit select name of every issued create call is the
raw `visit_yn` value, trimmed — exactly like `selling_mode`; no yes/no
normalization happens. -/
theorem visit_select_verbatim (db : String) (f : FormData) (resp : HttpResponse Unit)
    (rec : NotionRecord) (h : rec ∈ (daily_sales_post db f resp).2) :
    rec.visit = py_strip f.visit_yn ∧ rec.selling_mode = py_strip f.selling_mode := by
  obtain ⟨d, q, v, _, _, _, hrec⟩ := calls_characterization h
  subst hrec
  exact ⟨rfl, rfl⟩

/-- C1 (witness): the amended claim at the concrete `base_form`. -/
theorem visit_select_verbatim_witness :
    base_rec.visit = py_strip base_form.visit_yn ∧
      base_rec.selling_mode = py_strip base_form.selling_mode :=
  visit_select_verbatim "db1" base_form resp_ok base_rec (by decide)

/-- C9: `_notion_post` raises the transport error carrying status code and
raw body exactly when the status is an error code (>= 400), and returns the
decoded body on a success status. -/
theorem notion_post_error_iff {α : Type} (r : HttpResponse α) :
    (notion_post r =
        Except.error ("Notion error " ++ toString r.status ++ ": " ++ r.text) ↔
      400 ≤ r.status) ∧
      (r.status < 400 → notion_post r = Except.ok r.json) := by
  unfold notion_post
  constructor
  · constructor
    · intro h
      by_contra hlt
      simp [hlt] at h
    · intro h
      simp [h]
  · intro h
    have : ¬ 400 ≤ r.status := by omega
    simp [this]

/-- C9 (witness): concrete success and error responses. -/
theorem notion_post_error_iff_witness :
    notion_post (⟨200, "ok", 42⟩ : HttpResponse Nat) = Except.ok 42 ∧
      notion_post (⟨500, "oops", 0⟩ : HttpResponse Nat) =
        Except.error ("Notion error " ++ toString (500 : Nat) ++ ": " ++ "oops") :=
  ⟨(notion_post_error_iff ⟨200, "ok", 42⟩).2 (by decide),
   (notion_post_error_iff ⟨500, "oops", 0⟩).1.mpr (by decide)⟩

/-- C5: every issued create call carries as Quantity and Value the parsed
numbers of the submitted strings (commas removed by `_to_int`/`_to_float`),
not the original strings. -/
theorem numeric_properties_parsed (db : String) (f : FormData)
    (resp : HttpResponse Unit) (rec : NotionRecord)
    (h : rec ∈ (daily_sales_post db f resp).2) :
    to_int f.quantity = some rec.quantity ∧ to_float f.value = some rec.value := by
  obtain ⟨d, q, v, _, hq, hv, hrec⟩ := calls_characterization h
  subst hrec
  exact ⟨hq, hv⟩

/-- C5 (witness): quantity `"1,200"` maps to the number 1200 and value
`"3,000.5"` to 3000.5. -/
theorem numeric_properties_parsed_witness :
    to_int c5_form.quantity = some 1200 ∧ to_float c5_form.value = some (mkRat 6001 2) := by
  have h := numeric_properties_parsed "db1" c5_form resp_ok c5_rec (by decide)
  exact ⟨h.1.trans (by decide), h.2.trans (by decide)⟩

/-- C6 (counterexample): a date submitted with surrounding whitespace is
accepted and mapped with its stripped value, so the start bound is not the
submitted string verbatim. -/
theorem date_not_verbatim_counterexample :
    (daily_sales_post "db1" c6_form resp_ok).2.map NotionRecord.date_start =
        ["2024-03-05"] ∧
      c6_form.date ≠ "2024-03-05" := by
  constructor
  · decide
  · decide

/-- C6 (amended): the Date property of every issued create call has only a
start bound, equal to the submitted date string trimmed of surrounding
whitespace and otherwise unreformatted. -/
theorem date_start_trimmed_passthrough (db : String) (f : FormData)
    (resp : HttpResponse Unit) (rec : NotionRecord)
    (h : rec ∈ (daily_sales_post db f resp).2) :
    rec.date_start = py_strip f.date := by
  obtain ⟨d, q, v, hd, _, _, hrec⟩ := calls_characterization h
  subst hrec
  exact parse_date_eq_strip hd

/-- C6 (witness): a whitespace-free date `"2024-03-05"` round-trips exactly. -/
theorem date_start_trimmed_passthrough_witness :
    base_rec.date_start = py_strip base_form.date ∧ base_rec.date_start = "2024-03-05" :=
  ⟨date_start_trimmed_passthrough "db1" base_form resp_ok base_rec (by decide), by decide⟩

/-- C4 (counterexample): a valid submission whose create call answers 500
makes the whole request fail with the uncaught transport error — the
`unhandled` outcome — instead of a rendered user-visible notice. -/
theorem create_error_not_rendered_counterexample :
    (daily_sales_post "db1" base_form resp_500).1 =
      PostResult.unhandled "Notion error 500: boom" := by
  decide

/-- C4 (amended): whenever a create call is reached and the response status
is an error code, the transport error (status code and raw body) propagates
out of the request handler unhandled, after the call was issued. -/
theorem create_error_unhandled (db : String) (f : FormData) (resp : HttpResponse Unit)
    (hval : validation_errors f = []) (hdb : db ≠ "") (hst : 400 ≤ resp.status) :
    (daily_sales_post db f resp).1 =
        PostResult.unhandled ("Notion error " ++ toString resp.status ++ ": " ++ resp.text) ∧
      (daily_sales_post db f resp).2 ≠ [] := by
  obtain ⟨⟨d, hd⟩, ⟨q, hq⟩, ⟨v, hv⟩⟩ := validation_errors_nil_parses hval
  have hpost : notion_post resp =
      Except.error ("Notion error " ++ toString resp.status ++ ": " ++ resp.text) := by
    unfold notion_post
    simp [hst]
  unfold daily_sales_post
  rw [hval, hd, hq, hv]
  simp [hdb, hpost]

/-- C4 (witness): the amended claim at the concrete 500 response. -/
theorem create_error_unhandled_witness :
    (daily_sales_post "db1" base_form resp_500).1 =
        PostResult.unhandled
          ("Notion error " ++ toString resp_500.status ++ ": " ++ resp_500.text) ∧
      (daily_sales_post "db1" base_form resp_500).2 ≠ [] :=
  create_error_unhandled "db1" base_form resp_500 (by decide) (by decide) (by decide)

/-- C7: with an empty table identifier the reference reader returns an empty
row collection and the option builder an empty option list, and no query
call is attempted (call count 0), whatever the service would answer. -/
theorem empty_table_id_empty_options (server : List QueryPage) (idp : String)
    (lp : Option String) :
    query_database_all "" server = ([], 0) ∧ options_from_db "" idp lp server = ([], 0) :=
  ⟨rfl, rfl⟩

/-- C7 (witness): the theorem at one concrete instantiation. -/
theorem empty_table_id_empty_options_witness :
    query_database_all "" [⟨[c8_page], true, some "c"⟩] = ([], 0) ∧
      options_from_db "" "ID" none [⟨[c8_page], true, some "c"⟩] = ([], 0) :=
  empty_table_id_empty_options [⟨[c8_page], true, some "c"⟩] "ID" none

/-- C8 (counterexample): a row whose value property is a select named by a
single space is truthy, so it is not skipped, but its stripped value is
empty: the option builder emits an option whose value is the empty string. -/
theorem option_empty_value_counterexample :
    options_from_pages [c8_page] "ID" none = [("", "")] := by
  decide

/-- C8 (amended): every emitted option comes from a row whose value property
decodes to a non-empty string (rows decoding to absent or empty are
excluded), and the option's value is that string trimmed — which is empty
exactly when the decoded string is whitespace-only. -/
theorem options_values_from_nonempty_decode (pages : List PropBag)
    (idp : String) (lp : Option String) (v l : String)
    (h : (v, l) ∈ options_from_pages pages idp lp) :
    ∃ props, props ∈ pages ∧ ∃ s, get_prop_value props idp = some s ∧ s ≠ "" ∧
      v = py_strip s := by
  unfold options_from_pages at h
  rw [mem_sort_by_value, List.mem_filterMap] at h
  obtain ⟨props, hmem, hro⟩ := h
  refine ⟨props, hmem, ?_⟩
  unfold row_option at hro
  cases hg : get_prop_value props idp with
  | none => rw [hg] at hro; simp at hro
  | some s =>
    rw [hg] at hro
    by_cases hs : s = ""
    · simp [hs] at hro
    · simp [hs] at hro
      exact ⟨s, rfl, hs, hro.1.symm⟩

/-- C8 (witness): the amended claim at a concrete row with a title value. -/
theorem options_values_from_nonempty_decode_witness :
    ∃ props, props ∈ [[(("ID" : String), NotionProperty.title ["S 1"])]] ∧
      ∃ s, get_prop_value props "ID" = some s ∧ s ≠ "" ∧ ("S 1" : String) = py_strip s :=
  options_values_from_nonempty_decode [[("ID", NotionProperty.title ["S 1"])]]
    "ID" none "S 1" "S 1" (by decide)

/-- C2 (counterexample): with quantity and region empty, the missing list is
in required-field order, `["region", "quantity"]`, not `["quantity",
"region"]`. -/
theorem missing_fields_order_counterexample :
    missing_fields c2_form = ["region", "quantity"] ∧
      missing_fields c2_form ≠ ["quantity", "region"] := by
  constructor
  · decide
  · decide

/-- C2 (amended): for every submitted form with one or more empty required
fields, the validator collects ALL missing-field names into one single error
message (the comma-join of the whole missing list, in required-field order)
rather than failing on the first, and no create call is issued; in the
particular scenario with quantity and region empty and the other required
fields filled, that missing list is `["region", "quantity"]` and the single
error is "Missing fields: region, quantity". -/
theorem missing_fields_collected_once (db : String) (f : FormData)
    (resp : HttpResponse Unit) :
    (missing_fields f ≠ [] →
      validation_errors f =
          ["Missing fields: " ++ join_comma_space (missing_fields f)] ∧
        (daily_sales_post db f resp).2 = []) ∧
    (py_strip f.quantity = "" → py_strip f.region = "" →
      py_strip f.date ≠ "" → py_strip f.salesman_id ≠ "" →
      py_strip f.distributor_id ≠ "" → py_strip f.outlet_id ≠ "" →
      py_strip f.sku_id ≠ "" → py_strip f.value ≠ "" →
      py_strip f.selling_mode ≠ "" → py_strip f.visit_yn ≠ "" →
      missing_fields f = ["region", "quantity"] ∧
        validation_errors f = ["Missing fields: region, quantity"] ∧
        (daily_sales_post db f resp).2 = []) := by
  have hgen : missing_fields f ≠ [] →
      validation_errors f =
          ["Missing fields: " ++ join_comma_space (missing_fields f)] ∧
        (daily_sales_post db f resp).2 = [] := by
    intro hm
    have hmi : (missing_fields f).isEmpty = false := by
      cases hcase : missing_fields f with
      | nil => exact absurd hcase hm
      | cons a as => rfl
    have hval : validation_errors f =
        ["Missing fields: " ++ join_comma_space (missing_fields f)] := by
      unfold validation_errors
      rw [hmi]
      simp
    refine ⟨hval, ?_⟩
    unfold daily_sales_post
    rw [hval]
    simp
  refine ⟨hgen, ?_⟩
  intro hq hr h1 h2 h3 h4 h5 h6 h7 h8
  have gq : (py_strip (form_get f "quantity") == "") = true := beq_iff_eq.mpr hq
  have gr : (py_strip (form_get f "region") == "") = true := beq_iff_eq.mpr hr
  have g1 : (py_strip (form_get f "date") == "") = false := beq_eq_false_iff_ne.mpr h1
  have g2 : (py_strip (form_get f "salesman_id") == "") = false := beq_eq_false_iff_ne.mpr h2
  have g3 : (py_strip (form_get f "distributor_id") == "") = false := beq_eq_false_iff_ne.mpr h3
  have g4 : (py_strip (form_get f "outlet_id") == "") = false := beq_eq_false_iff_ne.mpr h4
  have g5 : (py_strip (form_get f "sku_id") == "") = false := beq_eq_false_iff_ne.mpr h5
  have g6 : (py_strip (form_get f "value") == "") = false := beq_eq_false_iff_ne.mpr h6
  have g7 : (py_strip (form_get f "selling_mode") == "") = false := beq_eq_false_iff_ne.mpr h7
  have g8 : (py_strip (form_get f "visit_yn") == "") = false := beq_eq_false_iff_ne.mpr h8
  have hmiss : missing_fields f = ["region", "quantity"] := by
    simp only [missing_fields, required_fields, List.filter,
      gq, gr, g1, g2, g3, g4, g5, g6, g7, g8]
  obtain ⟨hval, hcalls⟩ := hgen (by rw [hmiss]; simp)
  rw [hmiss] at hval
  exact ⟨hmiss, hval.trans (by decide), hcalls⟩

/-- C2 (witness): the general clause at a form with three empty required
fields (quantity, region and a whitespace-only value), and the specific
two-missing-fields scenario at `c2_form`. -/
theorem missing_fields_collected_once_witness :
    validation_errors c2_form3 = ["Missing fields: region, quantity, value"] ∧
      (daily_sales_post "db1" c2_form3 resp_ok).2 = [] ∧
      missing_fields c2_form = ["region", "quantity"] ∧
      validation_errors c2_form = ["Missing fields: region, quantity"] ∧
      (daily_sales_post "db1" c2_form resp_ok).2 = [] := by
  have hg := (missing_fields_collected_once "db1" c2_form3 resp_ok).1 (by decide)
  have hs := (missing_fields_collected_once "db1" c2_form resp_ok).2 (by decide)
    (by decide) (by decide) (by decide) (by decide) (by decide) (by decide)
    (by decide) (by decide) (by decide)
  exact ⟨hg.1.trans (by decide), hg.2, hs.1, hs.2.1, hs.2.2⟩

/-- C3 (counterexample): with region empty and a malformed date, the only
error is the missing-fields one; the date parse failure appends nothing, so
the type checks are not independent of the missing-field check. -/
theorem parse_skipped_when_missing_counterexample :
    validation_errors c3_form = ["Missing fields: region"] ∧
      "Date must be in YYYY-MM-DD format." ∉ validation_errors c3_form := by
  constructor
  · decide
  · decide

/-- C3 (amended): when no required field is missing, the validator attempts
all three parses — date as strict `YYYY-MM-DD`, quantity and value as
numbers — and each parse failure appends its own distinct message. -/
theorem parse_errors_when_no_missing (f : FormData) (h : missing_fields f = []) :
    ("Date must be in YYYY-MM-DD format." ∈ validation_errors f ↔
        parse_date_yyyy_mm_dd f.date = none) ∧
      ("Quantity must be a number." ∈ validation_errors f ↔ to_int f.quantity = none) ∧
      ("Value must be a number." ∈ validation_errors f ↔ to_float f.value = none) := by
  unfold validation_errors
  rw [h]
  cases hd : parse_date_yyyy_mm_dd f.date <;> cases hq : to_int f.quantity <;>
    cases hv : to_float f.value <;> simp

/-- C3 (witness): all three malformed inputs produce their three messages. -/
theorem parse_errors_when_no_missing_witness :
    "Date must be in YYYY-MM-DD format." ∈ validation_errors c3_typed_form ∧
      "Quantity must be a number." ∈ validation_errors c3_typed_form ∧
      "Value must be a number." ∈ validation_errors c3_typed_form := by
  have h := parse_errors_when_no_missing c3_typed_form (by decide)
  exact ⟨h.1.mpr (by decide), h.2.1.mpr (by decide), h.2.2.mpr (by decide)⟩

/-- C10: a quantity string that parses as a decimal number passes quantity
validation (no quantity error is appended), and every issued create call
maps Quantity to the decimal value truncated toward zero, commas removed —
the behaviour of `int(float(s))`. -/
theorem quantity_decimal_truncation (f : FormData) (q : ℚ)
    (h : to_float f.quantity = some q) :
    to_int f.quantity = some (rat_trunc q) ∧
      "Quantity must be a number." ∉ validation_errors f ∧
      ∀ (db : String) (resp : HttpResponse Unit) (rec : NotionRecord),
        rec ∈ (daily_sales_post db f resp).2 → rec.quantity = rat_trunc q := by
  have hint : to_int f.quantity = some (rat_trunc q) := by
    have : to_int f.quantity = (to_float f.quantity).map rat_trunc := rfl
    rw [this, h]
    rfl
  refine ⟨hint, ?_, ?_⟩
  · unfold validation_errors
    cases hm : (missing_fields f).isEmpty
    · simp only [Bool.false_eq_true, if_false]
      intro hmem
      exact message_missing_ne_quantity _ (List.mem_singleton.mp hmem).symm
    · simp only [if_true]
      rw [hint]
      cases hd : parse_date_yyyy_mm_dd f.date <;> cases hv : to_float f.value <;> simp
  · intro db resp rec hrec
    obtain ⟨d2, q2, v2, _, hq2, _, hrec2⟩ := calls_characterization hrec
    rw [hint] at hq2
    subst hrec2
    exact (Option.some.inj hq2).symm

/-- C10 (witness): `"12.9"` truncates to 12 and `"1,200.5"` to 1200; neither
appends a quantity error. -/
theorem quantity_decimal_truncation_witness :
    to_int c10_form.quantity = some 12 ∧ to_int c10_form2.quantity = some 1200 ∧
      "Quantity must be a number." ∉ validation_errors c10_form := by
  have ha := quantity_decimal_truncation c10_form (mkRat 129 10) (by decide)
  have hb := quantity_decimal_truncation c10_form2 (mkRat 2401 2) (by decide)
  exact ⟨ha.1.trans (by decide), hb.1.trans (by decide), ha.2.1⟩
